import Mathlib

/-!
Verification of the rendition-selection, playback-lifecycle and request
building logic of the `plugin.video.peertube` Kodi add-on.

The Python source is embedded shallowly:

* `PeerTubeAddon._get_url_with_resolution` (resources/lib/addon.py) and the
  selection loop of `PeertubeAddon.get_video_url` (peertube.py) become pure
  Lean functions over lists of (resolution, url) pairs; a Python
  `UnboundLocalError` on the never-assigned `backup_url` local is modelled by
  the `PyResult.nameError` outcome.
* `PeertubePlayer` (service.py) becomes a state structure with event handler
  functions returning the observable effects (pause calls, prompts).  The
  `kodi.open_yes_no_dialog` call in `onPlayBackStopped` names a method that
  `KodiUtils` (resources/lib/kodi_utils.py) does not define, so that branch
  is modelled as raising `AttributeError` with no effect performed.
* The polling wait loop of `PeertubeAddon.play_video` (peertube.py) becomes a
  fuelled loop over an oracle giving the value of `self.play` at each check.
* `PeerTube._build_params` / `list_videos` / `search_videos`
  (resources/lib/peertube.py) are embedded with an explicit heap of Python
  dictionaries so that the in-place mutation and the `.copy()` call keep
  their aliasing behaviour.
-/

/-- Outcome of a Python function that either returns a string or dies with an
`UnboundLocalError`/`NameError` because a local was never assigned. -/
inductive PyResult where
  | ok (u : String)
  | nameError
deriving DecidableEq, Repr

/-- The loop state of `_get_url_with_resolution` (addon.py, lines 214-245):
`current_resolution` and `higher_resolution` are the two running extrema,
`url` is the best-below URL (`None` initially) and `backup_url` is the
best-above URL; `none` for `backup_url` models the *unbound* Python local. -/
structure SelState where
  current_resolution : Int
  higher_resolution : Int
  url : Option String
  backup_url : Option String
deriving DecidableEq, Repr

/-- Result of the scanning loop: either the early `return video["url"]` taken
on an exact resolution match, or the state left after the full scan. -/
inductive ScanOut where
  | exact (u : String)
  | done (s : SelState)
deriving DecidableEq, Repr

/-- The `for video in list_of_url_and_resolutions` loop of
`_get_url_with_resolution` (addon.py lines 218-245), one (resolution, url)
pair per element, with the three `if/elif/elif` branches in source order. -/
def selScan (preferred : Int) (s : SelState) : List (Int × String) → ScanOut
  | [] => ScanOut.done s
  | v :: rest =>
    if v.1 = preferred then
      ScanOut.exact v.2
    else if v.1 < preferred ∧ s.current_resolution < v.1 then
      selScan preferred
        { s with url := some v.2, current_resolution := v.1 } rest
    else if preferred < v.1 ∧
        (v.1 < s.higher_resolution ∨ s.higher_resolution = -1) then
      selScan preferred
        { s with backup_url := some v.2, higher_resolution := v.1 } rest
    else
      selScan preferred s rest

/-- The initial loop state of `_get_url_with_resolution`:
`current_resolution = 0`, `higher_resolution = -1`, `url = None` and
`backup_url` not yet bound. -/
def initState : SelState := ⟨0, -1, none, none⟩

/-- The code after the loop of `_get_url_with_resolution` (addon.py lines
247-254): `if url is None: url = backup_url` — reading `backup_url` when it
was never assigned raises `UnboundLocalError`, modelled by `nameError`. -/
def finishScan : ScanOut → PyResult
  | ScanOut.exact u => PyResult.ok u
  | ScanOut.done s =>
    match s.url with
    | some u => PyResult.ok u
    | none =>
      match s.backup_url with
      | some b => PyResult.ok b
      | none => PyResult.nameError

/-- `PeerTubeAddon._get_url_with_resolution(self, list_of_url_and_resolutions)`
(addon.py lines 198-254), with `self.preferred_resolution` passed explicitly
and each list entry given as its (resolution, url) pair. -/
def get_url_with_resolution (preferred : Int)
    (files : List (Int × String)) : PyResult :=
  finishScan (selScan preferred initState files)

/-- The loop state of the selection part of `PeertubeAddon.get_video_url`
(peertube.py, lines 246-282).  This older iteration uses the empty string as
the "nothing found yet" marker for `torrent_url` instead of `None`. -/
structure SelStateB where
  current_res : Int
  higher_res : Int
  torrent_url : String
  backup_url : Option String
deriving DecidableEq, Repr

/-- The `for f in files` loop of `get_video_url` (peertube.py lines 250-274);
an exact match assigns `torrent_url` and `break`s. -/
def gvuScan (preferred : Int) (s : SelStateB) :
    List (Int × String) → SelStateB
  | [] => s
  | f :: rest =>
    if f.1 = preferred then
      { s with torrent_url := f.2 }
    else if f.1 < preferred ∧ s.current_res < f.1 then
      gvuScan preferred { s with torrent_url := f.2, current_res := f.1 } rest
    else if preferred < f.1 ∧
        (f.1 < s.higher_res ∨ s.higher_res = -1) then
      gvuScan preferred { s with backup_url := some f.2, higher_res := f.1 } rest
    else
      gvuScan preferred s rest

/-- The selection part of `PeertubeAddon.get_video_url` (peertube.py lines
246-282): initial `current_res = 0`, `higher_res = -1`, `torrent_url = ''`;
after the loop `if not torrent_url: torrent_url = backup_url`, which raises
`UnboundLocalError` when `backup_url` was never assigned. -/
def get_video_url (preferred : Int) (files : List (Int × String)) : PyResult :=
  let s := gvuScan preferred ⟨0, -1, "", none⟩ files
  if s.torrent_url = "" then
    match s.backup_url with
    | some b => PyResult.ok b
    | none => PyResult.nameError
  else
    PyResult.ok s.torrent_url

/-- The attributes of `PeertubePlayer` (service.py lines 17-25):
`torrent_url` and `run_url` start as `None`, `playback_started` as `False`.
`torrent_url` is the tracked locator of the fetch, `playback_started` the
"stream actually began rendering" flag. -/
structure PlayerState where
  torrent_url : Option String
  run_url : Option String
  playback_started : Bool
deriving DecidableEq, Repr

/-- Observable side effects of the `PeertubePlayer` event handlers:
`pauseTorrent u` is a `pause_torrent` call on locator `u` (service.py lines
84-89); `askUser` is a successfully opened yes/no confirmation dialog.  The
source attempts one at line 77, but `KodiUtils` defines no
`open_yes_no_dialog`, so no handler ever emits `askUser` — the constructor
exists so that "no prompt is shown" can be stated. -/
inductive Effect where
  | pauseTorrent (u : String)
  | askUser
deriving DecidableEq, Repr

/-- Result of a `PeertubePlayer` event handler: a normal return with the new
state and the effects performed, or a Python exception escaping the handler,
carrying the state and the effects performed before the raise. -/
inductive HandlerResult where
  | ok (s : PlayerState) (eff : List Effect)
  | attrError (s : PlayerState) (eff : List Effect)
deriving DecidableEq, Repr

/-- The effects a handler performed, whether or not it raised. -/
def HandlerResult.effects : HandlerResult → List Effect
  | HandlerResult.ok _ eff => eff
  | HandlerResult.attrError _ eff => eff

/-- `PeertubePlayer.onAVStarted` (service.py lines 34-44).  The Kodi callback
carries no payload; the handler only tests `self.torrent_url is not None` and
then sets `playback_started`.  The `ev` argument is the locator of the
content whose stream actually started — it is threaded through purely so
that properties about events for unrelated content can be stated; the source
has no access to it and ignores it. -/
def onAVStarted (ev : String) (s : PlayerState) : PlayerState :=
  if s.torrent_url.isSome then { s with playback_started := true } else s

/-- `PeertubePlayer.onPlayBackStopped` (service.py lines 46-82).  With a
tracked torrent whose playback had started, pause the torrent and clear the
tracking attributes.  With a tracked torrent whose playback had not started,
line 77 looks up `kodi.open_yes_no_dialog` — `KodiUtils`
(resources/lib/kodi_utils.py) defines no such method and has no dynamic
attribute fallback, so the lookup raises `AttributeError` before any dialog
is shown or any argument evaluated: the exception escapes the handler with
no effect performed and the attributes unchanged.  With no tracked torrent
the event is ignored. -/
def onPlayBackStopped (s : PlayerState) : HandlerResult :=
  match s.torrent_url with
  | none => HandlerResult.ok s []
  | some u =>
    if s.playback_started then
      HandlerResult.ok
        { s with torrent_url := none, playback_started := false }
        [Effect.pauseTorrent u]
    else
      HandlerResult.attrError s []

/-- `PeertubePlayer.update_torrent_info` (service.py lines 91-99): stores the
torrent url and run url from the received signal data; `playback_started` is
not touched. -/
def update_torrent_info (torrent_url run_url : String) (s : PlayerState) :
    PlayerState :=
  { s with torrent_url := some torrent_url, run_url := some run_url }

/-- Number of `pause_torrent` calls among a list of effects. -/
def countPauses (l : List Effect) : Nat :=
  (l.filter (fun e => match e with | Effect.pauseTorrent _ => true | _ => false)).length

/-- Number of yes/no confirmation prompts among a list of effects. -/
def countPrompts (l : List Effect) : Nat :=
  (l.filter (fun e => match e with | Effect.askUser => true | _ => false)).length

/-- The polling loop of `PeertubeAddon.play_video` (peertube.py lines
461-464): `timeout = 0; while self.play == 0 and timeout < bound:
sleep(1000); timeout += 1`.  `ready t` is the value of `self.play ≠ 0` seen
at the check made with `timeout = t` (the flag is set asynchronously by
`play_video_continue`).  The result is the final value of `timeout`; the
fuel only bounds recursion and `bound + 1 - t` steps always suffice. -/
def waitLoop (ready : Nat → Bool) (bound : Nat) : Nat → Nat → Nat
  | t, 0 => t
  | t, fuel + 1 =>
    if ready t = false ∧ t < bound then waitLoop ready bound (t + 1) fuel
    else t

/-- `PeertubeAddon.play_video` after `start_download` has been signalled
(peertube.py lines 461-478), for a general timeout bound (the source uses
`10`): run the polling loop from `timeout = 0`; `if timeout == bound` report
the download-timeout error, otherwise (after the 3-second grace sleep) hand
the announced file `self.torrent_f` — the path stored by
`play_video_continue` (lines 424-435) — to the player.  `play t` is `none`
while `self.play == 0` at check `t` and `some path` once the
`metadata_downloaded` signal carrying `path` has been handled. -/
def play_video_wait (play : Nat → Option String) (bound : Nat) :
    Except String String :=
  let t := waitLoop (fun k => (play k).isSome) bound 0 (bound + 1)
  if t = bound then Except.error "Download timeout"
  else Except.ok ((play t).getD "")

/-- A Python value appearing in a request-parameter dictionary: the add-on
stores strings (sort method, filter, search keywords) and integers (count,
start offset). -/
inductive PyVal where
  | str (v : String)
  | int (v : Int)
deriving DecidableEq, Repr

/-- A Python dictionary with string keys, as an insertion-ordered
association list (Python dicts preserve insertion order; assigning to an
existing key updates it in place). -/
abbrev Dict := List (String × PyVal)

/-- Python dictionary assignment `d[k] = v`: update the existing entry or
append a new one. -/
def dictSet (d : Dict) (k : String) (v : PyVal) : Dict :=
  if d.any (fun kv => kv.1 = k) then
    d.map (fun kv => if kv.1 = k then (k, v) else kv)
  else
    d ++ [(k, v)]

/-- A heap of Python dictionaries; a dictionary value in the program is a
reference (index) into this heap, so aliasing and in-place mutation are
observable. -/
structure Store where
  heap : List Dict
deriving DecidableEq, Repr

/-- Dereference a dictionary (an out-of-range reference gives the empty
dictionary; all references used below are in range). -/
def readRef (st : Store) (r : Nat) : Dict :=
  st.heap.getD r []

/-- Overwrite the dictionary behind reference `r` in place. -/
def writeRef (st : Store) (r : Nat) (d : Dict) : Store :=
  ⟨st.heap.set r d⟩

/-- Allocate a fresh dictionary, returning the new store and the fresh
reference. -/
def alloc (st : Store) (d : Dict) : Store × Nat :=
  (⟨st.heap ++ [d]⟩, st.heap.length)

/-- The attributes of a `PeerTube` object (resources/lib/peertube.py lines
20-36) used by the listing requests: the instance URL (named `instance` in
the source — a reserved word here), the reference to the shared
`list_settings` dictionary holding `sort` and `count`, and the `filter`
string. -/
structure PeerTube where
  instanceUrl : String
  list_settings : Nat
  filter : String
deriving DecidableEq, Repr

/-- `PeerTube._build_params(self, **kwargs)` (resources/lib/peertube.py
lines 95-114): `params = self.list_settings.copy()` allocates a fresh
dictionary holding a copy of the shared settings, then each keyword
argument is assigned into the copy.  Returns the new store and the
reference to the freshly built parameter dictionary. -/
def build_params (st : Store) (pt : PeerTube)
    (kwargs : List (String × PyVal)) : Store × Nat :=
  let a := alloc st (readRef st pt.list_settings)
  (kwargs.foldl
    (fun s kv => writeRef s a.2 (dictSet (readRef s a.2) kv.1 kv.2)) a.1,
   a.2)

/-- `PeerTube.list_videos(self, start)` (resources/lib/peertube.py lines
183-193): builds the parameters `filter=self.filter, start=start` on top of
the common settings; the HTTP request itself is external, so the function
returns the store, the (unchanged) object and the reference to the
parameter dictionary that is sent. -/
def list_videos (st : Store) (pt : PeerTube) (start : Int) :
    Store × PeerTube × Nat :=
  let b := build_params st pt
    [("filter", PyVal.str pt.filter), ("start", PyVal.int start)]
  (b.1, pt, b.2)

/-- `PeerTube.search_videos(self, keywords, start)` (resources/lib/
peertube.py lines 195-208): builds `search=keywords, filter=self.filter,
start=start` on top of the common settings. -/
def search_videos (st : Store) (pt : PeerTube) (keywords : String)
    (start : Int) : Store × PeerTube × Nat :=
  let b := build_params st pt
    [("search", PyVal.str keywords), ("filter", PyVal.str pt.filter),
     ("start", PyVal.int start)]
  (b.1, pt, b.2)

/-- Python's `str.startswith(prefix)`: the first `len(prefix)` characters
equal the prefix. -/
def pyStartswith (s pre : String) : Bool :=
  decide (pre.data = s.data.take pre.data.length)

/-- `PeerTube.set_instance(self, instance)` (resources/lib/peertube.py
lines 210-224): prefix the URL with `https://` unless it already starts
with it, and store the result; the returned value is the stored
`self.instance`.  (The parameter is named `instance` in the source, a
reserved word here.) -/
def set_instance (inst : String) : String :=
  if pyStartswith inst "https://" then inst else "https://" ++ inst

/-- After the scan reached a state whose `current_resolution` already bounds
every remaining below-preferred resolution, the loop never assigns `url` or
`current_resolution` again (no exact match occurs in the remainder). -/
lemma selScan_url_frozen (preferred : Int) (l : List (Int × String)) :
    ∀ (s : SelState),
      (∀ q ∈ l, q.1 ≠ preferred) →
      (∀ q ∈ l, q.1 < preferred → q.1 ≤ s.current_resolution) →
      ∃ s', selScan preferred s l = ScanOut.done s' ∧
        s'.url = s.url ∧ s'.current_resolution = s.current_resolution := by
  induction l with
  | nil =>
    intro s _ _
    exact ⟨s, rfl, rfl, rfl⟩
  | cons v rest ih =>
    intro s hne hle
    have hv : ¬ v.1 = preferred := hne v (List.mem_cons_self v rest)
    have hnb : ¬ (v.1 < preferred ∧ s.current_resolution < v.1) := by
      rintro ⟨h1, h2⟩
      exact absurd (hle v (List.mem_cons_self v rest) h1) (not_le.mpr h2)
    by_cases ha : preferred < v.1 ∧
        (v.1 < s.higher_resolution ∨ s.higher_resolution = -1)
    · rw [selScan, if_neg hv, if_neg hnb, if_pos ha]
      exact ih _ (fun q hq => hne q (List.mem_cons_of_mem v hq))
        (fun q hq hlt => hle q (List.mem_cons_of_mem v hq) hlt)
    · rw [selScan, if_neg hv, if_neg hnb, if_neg ha]
      exact ih s (fun q hq => hne q (List.mem_cons_of_mem v hq))
        (fun q hq hlt => hle q (List.mem_cons_of_mem v hq) hlt)

/-- When the list has no exact match, its resolutions are distinct, and `p`
is a member strictly below `preferred` that bounds every below-preferred
member, a scan started with `current_resolution < p.1` ends with
`url = some p.2`. -/
lemma selScan_below_wins (preferred : Int) (l : List (Int × String)) :
    ∀ (s : SelState) (p : Int × String),
      p ∈ l →
      (∀ q ∈ l, q.1 ≠ preferred) →
      l.Pairwise (fun a b => a.1 ≠ b.1) →
      p.1 < preferred →
      (∀ q ∈ l, q.1 < preferred → q.1 ≤ p.1) →
      s.current_resolution < p.1 →
      ∃ s', selScan preferred s l = ScanOut.done s' ∧ s'.url = some p.2 := by
  induction l with
  | nil =>
    intro s p hp
    exact absurd hp (List.not_mem_nil p)
  | cons v rest ih =>
    intro s p hp hne hpw hplt hmax hcur
    have hv : ¬ v.1 = preferred := hne v (List.mem_cons_self v rest)
    have hne' : ∀ q ∈ rest, q.1 ≠ preferred :=
      fun q hq => hne q (List.mem_cons_of_mem v hq)
    have hmax' : ∀ q ∈ rest, q.1 < preferred → q.1 ≤ p.1 :=
      fun q hq => hmax q (List.mem_cons_of_mem v hq)
    rcases List.mem_cons.mp hp with hpv | hpr
    · subst hpv
      have hb : p.1 < preferred ∧ s.current_resolution < p.1 := ⟨hplt, hcur⟩
      rw [selScan, if_neg hv, if_pos hb]
      obtain ⟨s', hs', hurl, _⟩ := selScan_url_frozen preferred rest
        { s with url := some p.2, current_resolution := p.1 } hne' hmax'
      exact ⟨s', hs', hurl⟩
    · have hvp : v.1 ≠ p.1 := (List.pairwise_cons.mp hpw).1 p hpr
      have hpw' : rest.Pairwise (fun a b => a.1 ≠ b.1) :=
        (List.pairwise_cons.mp hpw).2
      by_cases hb : v.1 < preferred ∧ s.current_resolution < v.1
      · rw [selScan, if_neg hv, if_pos hb]
        refine ih _ p hpr hne' hpw' hplt hmax' ?_
        exact lt_of_le_of_ne (hmax v (List.mem_cons_self v rest) hb.1) hvp
      · by_cases ha : preferred < v.1 ∧
            (v.1 < s.higher_resolution ∨ s.higher_resolution = -1)
        · rw [selScan, if_neg hv, if_neg hb, if_pos ha]
          exact ih _ p hpr hne' hpw' hplt hmax' hcur
        · rw [selScan, if_neg hv, if_neg hb, if_neg ha]
          exact ih s p hpr hne' hpw' hplt hmax' hcur

/-- When a member of the list has exactly the preferred resolution and the
resolutions are distinct, the scan short-circuits with that member's url. -/
lemma selScan_exact (preferred : Int) (l : List (Int × String)) :
    ∀ (s : SelState) (p : Int × String),
      p ∈ l → p.1 = preferred →
      l.Pairwise (fun a b => a.1 ≠ b.1) →
      selScan preferred s l = ScanOut.exact p.2 := by
  induction l with
  | nil =>
    intro s p hp
    exact absurd hp (List.not_mem_nil p)
  | cons v rest ih =>
    intro s p hp hpe hpw
    rcases List.mem_cons.mp hp with hpv | hpr
    · subst hpv
      rw [selScan, if_pos hpe]
    · have hv : ¬ v.1 = preferred := by
        intro h
        exact (List.pairwise_cons.mp hpw).1 p hpr (h.trans hpe.symm)
      have hpw' : rest.Pairwise (fun a b => a.1 ≠ b.1) :=
        (List.pairwise_cons.mp hpw).2
      by_cases hb : v.1 < preferred ∧ s.current_resolution < v.1
      · rw [selScan, if_neg hv, if_pos hb]
        exact ih _ p hpr hpe hpw'
      · by_cases ha : preferred < v.1 ∧
            (v.1 < s.higher_resolution ∨ s.higher_resolution = -1)
        · rw [selScan, if_neg hv, if_neg hb, if_pos ha]
          exact ih _ p hpr hpe hpw'
        · rw [selScan, if_neg hv, if_neg hb, if_neg ha]
          exact ih s p hpr hpe hpw'

/-- Once `higher_resolution` is a real value bounding every remaining
(all-above-preferred) resolution, the loop never assigns `backup_url`,
`url` or `higher_resolution` again. -/
lemma selScan_above_frozen (preferred : Int) (l : List (Int × String)) :
    ∀ (s : SelState),
      (∀ q ∈ l, preferred < q.1 ∧ s.higher_resolution ≤ q.1) →
      s.higher_resolution ≠ -1 →
      ∃ s', selScan preferred s l = ScanOut.done s' ∧
        s'.url = s.url ∧ s'.backup_url = s.backup_url := by
  induction l with
  | nil =>
    intro s _ _
    exact ⟨s, rfl, rfl, rfl⟩
  | cons v rest ih =>
    intro s hall hs
    have h1 : preferred < v.1 := (hall v (List.mem_cons_self v rest)).1
    have h2 : s.higher_resolution ≤ v.1 := (hall v (List.mem_cons_self v rest)).2
    have hv : ¬ v.1 = preferred := (ne_of_gt h1)
    have hnb : ¬ (v.1 < preferred ∧ s.current_resolution < v.1) := by
      rintro ⟨hc, _⟩
      exact absurd h1 (not_lt.mpr (le_of_lt hc))
    have hna : ¬ (preferred < v.1 ∧
        (v.1 < s.higher_resolution ∨ s.higher_resolution = -1)) := by
      rintro ⟨_, hc | hc⟩
      · exact absurd h2 (not_le.mpr hc)
      · exact hs hc
    rw [selScan, if_neg hv, if_neg hnb, if_neg hna]
    exact ih s (fun q hq => hall q (List.mem_cons_of_mem v hq)) hs

/-- When every resolution in the list is strictly above `preferred ≥ 0`, the
resolutions are distinct, and `p` is a minimal member, a scan started with
the `-1` sentinel (or a running minimum still above `p.1`) ends with
`backup_url = some p.2` and an unchanged `url`. -/
lemma selScan_above_wins (preferred : Int) (l : List (Int × String)) :
    ∀ (s : SelState) (p : Int × String),
      p ∈ l →
      (∀ q ∈ l, preferred < q.1) →
      l.Pairwise (fun a b => a.1 ≠ b.1) →
      (∀ q ∈ l, p.1 ≤ q.1) →
      0 ≤ preferred →
      (s.higher_resolution = -1 ∨ p.1 < s.higher_resolution) →
      ∃ s', selScan preferred s l = ScanOut.done s' ∧
        s'.url = s.url ∧ s'.backup_url = some p.2 := by
  induction l with
  | nil =>
    intro s p hp
    exact absurd hp (List.not_mem_nil p)
  | cons v rest ih =>
    intro s p hp hall hpw hmin hpref hinv
    have h1 : preferred < v.1 := hall v (List.mem_cons_self v rest)
    have hv : ¬ v.1 = preferred := (ne_of_gt h1)
    have hnb : ¬ (v.1 < preferred ∧ s.current_resolution < v.1) := by
      rintro ⟨hc, _⟩
      exact absurd h1 (not_lt.mpr (le_of_lt hc))
    have hall' : ∀ q ∈ rest, preferred < q.1 :=
      fun q hq => hall q (List.mem_cons_of_mem v hq)
    have hmin' : ∀ q ∈ rest, p.1 ≤ q.1 :=
      fun q hq => hmin q (List.mem_cons_of_mem v hq)
    have hpw' : rest.Pairwise (fun a b => a.1 ≠ b.1) :=
      (List.pairwise_cons.mp hpw).2
    rcases List.mem_cons.mp hp with hpv | hpr
    · subst hpv
      have ha : preferred < p.1 ∧
          (p.1 < s.higher_resolution ∨ s.higher_resolution = -1) := by
        refine ⟨h1, ?_⟩
        rcases hinv with h | h
        · exact Or.inr h
        · exact Or.inl h
      rw [selScan, if_neg hv, if_neg hnb, if_pos ha]
      obtain ⟨s', hs', hurl, hback⟩ := selScan_above_frozen preferred rest
        { s with backup_url := some p.2, higher_resolution := p.1 }
        (fun q hq => ⟨hall' q hq, hmin' q hq⟩)
        (by
          intro hcontra
          have hpe : p.1 = -1 := hcontra
          omega)
      exact ⟨s', hs', hurl, hback⟩
    · have hvp : v.1 ≠ p.1 := (List.pairwise_cons.mp hpw).1 p hpr
      by_cases ha : preferred < v.1 ∧
          (v.1 < s.higher_resolution ∨ s.higher_resolution = -1)
      · rw [selScan, if_neg hv, if_neg hnb, if_pos ha]
        refine ih _ p hpr hall' hpw' hmin' hpref ?_
        exact Or.inr (lt_of_le_of_ne (hmin v (List.mem_cons_self v rest))
          (fun h => hvp h.symm))
      · rw [selScan, if_neg hv, if_neg hnb, if_neg ha]
        exact ih s p hpr hall' hpw' hmin' hpref hinv

/-- With an oracle that turns ready at check `t0` and stays ready, the loop
started at `t ≤ bound` with enough fuel stops at `min (max t t0) bound`. -/
lemma waitLoop_signal (t0 bound : Nat) (path : String)
    (play : Nat → Option String)
    (hplay : ∀ k, play k = if t0 ≤ k then some path else none) :
    ∀ fuel t, t ≤ bound → bound ≤ t + fuel →
      waitLoop (fun k => (play k).isSome) bound t fuel =
        min (max t t0) bound := by
  intro fuel
  induction fuel with
  | zero =>
    intro t ht hfuel
    rw [waitLoop]
    omega
  | succ fuel ih =>
    intro t ht hfuel
    by_cases hr : t0 ≤ t
    · have hready : (play t).isSome = true := by
        rw [hplay t, if_pos hr]
        rfl
      rw [waitLoop]
      have hcond : ¬ ((play t).isSome = false ∧ t < bound) := by
        rintro ⟨hc, _⟩
        rw [hready] at hc
        exact Bool.noConfusion hc
      rw [if_neg hcond]
      omega
    · have hready : (play t).isSome = false := by
        rw [hplay t, if_neg hr]
        rfl
      by_cases hb : t < bound
      · rw [waitLoop, if_pos ⟨hready, hb⟩]
        rw [ih (t + 1) (by omega) (by omega)]
        omega
      · rw [waitLoop]
        have hcond : ¬ ((play t).isSome = false ∧ t < bound) := by
          rintro ⟨_, hc⟩
          exact hb hc
        rw [if_neg hcond]
        omega

/-- Reading an index other than the one just written is unaffected. -/
lemma readRef_writeRef_ne (st : Store) (r q : Nat) (d : Dict) (h : r ≠ q) :
    readRef (writeRef st r d) q = readRef st q := by
  unfold readRef writeRef
  simp only [List.getD, List.get?_eq_getElem?]
  rw [List.getElem?_set_ne h]

/-- Reading an index inside the old heap is unaffected by an allocation. -/
lemma readRef_alloc (st : Store) (d : Dict) (q : Nat)
    (h : q < st.heap.length) :
    readRef (alloc st d).1 q = readRef st q := by
  unfold readRef alloc
  simp only [List.getD, List.get?_eq_getElem?]
  rw [List.getElem?_append, if_pos h]

/-- The assignment fold of `_build_params` only mutates the fresh parameter
dictionary: any other reference reads the same value afterwards. -/
lemma readRef_foldl_writes (r q : Nat) (h : r ≠ q) :
    ∀ (kws : List (String × PyVal)) (s : Store),
      readRef (kws.foldl
        (fun s kv => writeRef s r (dictSet (readRef s r) kv.1 kv.2)) s) q =
      readRef s q := by
  intro kws
  induction kws with
  | nil => intro s; rfl
  | cons kv rest ih =>
    intro s
    rw [List.foldl_cons, ih, readRef_writeRef_ne _ r q _ h]

/-- Prepending `https://` always yields a string starting with
`https://`. -/
lemma pyStartswith_https (s : String) :
    pyStartswith ("https://" ++ s) "https://" = true := by
  unfold pyStartswith
  rw [decide_eq_true_iff]
  rw [String.data_append]
  rw [List.take_left]

/-- C1 (counterexample): the claim says the below-running maximum is
initialized below any real resolution so that resolution 0 is a candidate.
In the code `current_resolution` starts at `0`, so a rendition with
resolution 0 is never selected: on `[(0, "u0")]` with preferred resolution
480 there is a pair strictly below the preferred one, yet the function does
not return `"u0"` — it reads the unbound `backup_url` local instead. -/
theorem get_url_zero_resolution_cex :
    get_url_with_resolution 480 [((0 : Int), "u0")] = PyResult.nameError ∧
    get_url_with_resolution 480 [((0 : Int), "u0")] ≠ PyResult.ok "u0" := by
  constructor
  · rfl
  · intro h
    exact PyResult.noConfusion h

/-- C1 (amended): for a list with distinct resolutions and no exact match,
`_get_url_with_resolution` returns the url of the pair with the highest
resolution strictly below the preferred one whenever such a pair with
resolution strictly greater than 0 exists (the running maximum starts at 0,
so a resolution-0 pair is never a candidate), regardless of how many
resolutions lie above the preferred one. -/
theorem get_url_best_below (preferred : Int) (files : List (Int × String))
    (p : Int × String)
    (hne : ∀ q ∈ files, q.1 ≠ preferred)
    (hpw : files.Pairwise (fun a b => a.1 ≠ b.1))
    (hp : p ∈ files)
    (hpos : 0 < p.1)
    (hplt : p.1 < preferred)
    (hmax : ∀ q ∈ files, q.1 < preferred → q.1 ≤ p.1) :
    get_url_with_resolution preferred files = PyResult.ok p.2 := by
  obtain ⟨s', hs', hurl⟩ :=
    selScan_below_wins preferred files initState p hp hne hpw hplt hmax hpos
  unfold get_url_with_resolution
  rw [hs']
  simp [finishScan, hurl]

/-- C1 (witness): end-to-end scenario B of the spec — renditions
`{144:u1, 1080:u2}`, preferred 480, returns `u1` (best below). -/
theorem get_url_best_below_witness :
    get_url_with_resolution 480 [((144 : Int), "u1"), (1080, "u2")] =
      PyResult.ok "u1" :=
  get_url_best_below 480 [((144 : Int), "u1"), (1080, "u2")] (144, "u1")
    (by decide) (by decide) (by decide) (by decide) (by decide) (by decide)

/-- C2 (counterexample): on the empty rendition list both selection
implementations die reading the unbound `backup_url` local — an untyped
Python `UnboundLocalError`, not a typed `NoRenditionAvailable` error (no
such error kind exists anywhere in the code). -/
theorem get_url_empty_cex :
    get_url_with_resolution 1080 [] = PyResult.nameError ∧
    get_video_url 1080 [] = PyResult.nameError := ⟨rfl, rfl⟩

/-- C2 (amended): for the empty list of (resolution, url) pairs and every
preferred resolution, both `_get_url_with_resolution` (addon.py) and the
selection part of `get_video_url` (peertube.py) fail with the untyped
unbound-local error on `backup_url` rather than a typed error. -/
theorem get_url_empty_untyped (preferred : Int) :
    get_url_with_resolution preferred [] = PyResult.nameError ∧
    get_video_url preferred [] = PyResult.nameError := ⟨rfl, rfl⟩

/-- C5: with distinct resolutions, whenever some pair's resolution equals the
preferred resolution the selection returns that pair's url (the scan
short-circuits at the exact match), and the selection is deterministic —
two calls with the same list and preferred resolution agree. -/
theorem get_url_exact (preferred : Int) (files : List (Int × String))
    (p : Int × String)
    (hp : p ∈ files)
    (hpe : p.1 = preferred)
    (hpw : files.Pairwise (fun a b => a.1 ≠ b.1)) :
    get_url_with_resolution preferred files = PyResult.ok p.2 ∧
    get_url_with_resolution preferred files =
      get_url_with_resolution preferred files := by
  refine ⟨?_, rfl⟩
  unfold get_url_with_resolution
  rw [selScan_exact preferred files initState p hp hpe hpw]
  rfl

/-- C5 (witness): end-to-end scenario A of the spec — renditions
`{144:u1, 240:u2, 480:u3}`, preferred 240, returns `u2`. -/
theorem get_url_exact_witness :
    get_url_with_resolution 240
      [((144 : Int), "u1"), (240, "u2"), (480, "u3")] = PyResult.ok "u2" :=
  (get_url_exact 240 [((144 : Int), "u1"), (240, "u2"), (480, "u3")]
    (240, "u2") (by decide) (by decide) (by decide)).1

/-- C6: for a non-empty list with distinct resolutions in which every
resolution is strictly above the (non-negative) preferred resolution, the
selection returns the url of the pair with the lowest resolution. -/
theorem get_url_all_above (preferred : Int) (files : List (Int × String))
    (p : Int × String)
    (hp : p ∈ files)
    (hall : ∀ q ∈ files, preferred < q.1)
    (hpw : files.Pairwise (fun a b => a.1 ≠ b.1))
    (hmin : ∀ q ∈ files, p.1 ≤ q.1)
    (hpref : 0 ≤ preferred) :
    get_url_with_resolution preferred files = PyResult.ok p.2 := by
  obtain ⟨s', hs', hurl, hback⟩ :=
    selScan_above_wins preferred files initState p hp hall hpw hmin hpref
      (Or.inl rfl)
  have hnone : s'.url = none := hurl
  unfold get_url_with_resolution
  rw [hs']
  simp [finishScan, hnone, hback]

/-- C6 (witness): end-to-end scenario C of the spec — renditions
`{1080:u1, 2160:u2}`, preferred 480, returns `u1` (best above, since
nothing is below). -/
theorem get_url_all_above_witness :
    get_url_with_resolution 480 [((1080 : Int), "u1"), (2160, "u2")] =
      PyResult.ok "u1" :=
  get_url_all_above 480 [((1080 : Int), "u1"), (2160, "u2")] (1080, "u1")
    (by decide) (by decide) (by decide) (by decide) (by decide)

/-- C3 (counterexample): with locator "u" tracked and no stream started
(Tracking state), a playback-stop event opens no prompt at all and pauses
nothing: the `kodi.open_yes_no_dialog` lookup raises `AttributeError`
(`KodiUtils` defines no such method), the exception escapes the handler,
and the tracked locator is left in place — contradicting the claim that the
user is asked, that a "yes" answer pauses the fetch, and that the bridge
ends Untracked. -/
theorem onPlayBackStopped_attribute_error_cex :
    onPlayBackStopped ⟨some "u", some "r", false⟩ =
      HandlerResult.attrError ⟨some "u", some "r", false⟩ [] ∧
    countPrompts
      (HandlerResult.effects (onPlayBackStopped ⟨some "u", some "r", false⟩)) =
      0 ∧
    countPauses
      (HandlerResult.effects (onPlayBackStopped ⟨some "u", some "r", false⟩)) =
      0 := ⟨rfl, rfl, rfl⟩

/-- C3 (amended): when a playback-stop event arrives in the Tracking state
(fetch tracked, no stream-started observed), the bridge neither asks the
user nor pauses the fetch: the `kodi.open_yes_no_dialog` call at service.py
line 77 raises `AttributeError` because `KodiUtils` defines no such method,
the exception escapes the handler before any effect is performed, and the
state is left unchanged — still Tracking, not Untracked. -/
theorem onPlayBackStopped_tracking_crash (u : String) (r : Option String) :
    onPlayBackStopped ⟨some u, r, false⟩ =
      HandlerResult.attrError ⟨some u, r, false⟩ [] := rfl

/-- C4 (counterexample): with locator "u1" tracked and no stream started, a
stream-started event for the unrelated content "u2" still flips the bridge
to Started — the handler has no locator to compare (the Kodi callback
carries none) and only tests that some fetch is tracked, so events for
unrelated content are not ignored. -/
theorem onAVStarted_unrelated_cex :
    (onAVStarted "u2" ⟨some "u1", none, false⟩).playback_started = true ∧
    "u2" ≠ "u1" := by
  constructor
  · rfl
  · decide

/-- C4 (amended): the Tracking → Started transition happens on every
stream-started event while a fetch is tracked, whatever content the event
pertains to (no locator comparison is made — the callback has no payload);
while no fetch is tracked the event leaves the state unchanged. -/
theorem onAVStarted_behaviour (ev u : String) (r : Option String) (b : Bool) :
    onAVStarted ev ⟨some u, r, b⟩ = ⟨some u, r, true⟩ ∧
    onAVStarted ev ⟨none, r, b⟩ = ⟨none, r, b⟩ := ⟨rfl, rfl⟩

/-- C8 (counterexample): after the fetch-identity broadcast for locator
"t1", a playback-stop with no prior stream-started does not trigger the
confirmation prompt: the handler raises `AttributeError` at the missing
`kodi.open_yes_no_dialog` before any dialog, so no prompt is shown and no
answer — negative or otherwise — can ever be given. -/
theorem playback_stop_no_prompt_cex :
    onPlayBackStopped (update_torrent_info "t1" "r1" ⟨none, none, false⟩) =
      HandlerResult.attrError ⟨some "t1", some "r1", false⟩ [] ∧
    countPrompts (HandlerResult.effects
      (onPlayBackStopped
        (update_torrent_info "t1" "r1" ⟨none, none, false⟩))) = 0 :=
  ⟨rfl, rfl⟩

/-- C8 (amended): (a) after the fetch-identity broadcast, a stream-started
event followed by a playback-stop event returns normally and triggers
exactly one pause call, on the tracked locator; (b) a playback-stop with no
prior stream-started raises `AttributeError` at the missing
`kodi.open_yes_no_dialog` before any prompt, so zero prompts and zero
pauses occur and the state is unchanged; (c) a playback-stop while no fetch
is tracked returns normally with no pause and no prompt. -/
theorem playback_lifecycle_effects (u r ev : String) (s0 : PlayerState) :
    onPlayBackStopped
        (onAVStarted ev (update_torrent_info u r ⟨none, none, false⟩)) =
      HandlerResult.ok ⟨none, some r, false⟩ [Effect.pauseTorrent u] ∧
    countPauses (HandlerResult.effects
      (onPlayBackStopped
        (onAVStarted ev (update_torrent_info u r ⟨none, none, false⟩)))) = 1 ∧
    onPlayBackStopped (update_torrent_info u r ⟨none, none, false⟩) =
      HandlerResult.attrError ⟨some u, some r, false⟩ [] ∧
    countPauses (HandlerResult.effects
      (onPlayBackStopped (update_torrent_info u r ⟨none, none, false⟩))) = 0 ∧
    countPrompts (HandlerResult.effects
      (onPlayBackStopped (update_torrent_info u r ⟨none, none, false⟩))) = 0 ∧
    onPlayBackStopped { s0 with torrent_url := none } =
      HandlerResult.ok { s0 with torrent_url := none } [] :=
  ⟨rfl, rfl, rfl, rfl, rfl, rfl⟩

/-- C7: for a wait loop with a timeout bound of `bound` polling intervals
and a ready signal carrying `path` that is first observable at check `t0`:
(a) when the signal is observed strictly before the bound is exhausted
(`t0 < bound`) the wait succeeds and hands the announced path to playback;
(b) it fails with the download-timeout error exactly when no signal is
observed within the bound (`bound ≤ t0`); and (c) the loop never runs past
the bound: its final `timeout` counter is at most `bound` (one polling
interval of slack beyond the arrival instant is possible because arrival is
only observed at the next check). -/
theorem play_video_wait_spec (bound t0 : Nat) (path : String)
    (play : Nat → Option String)
    (hplay : ∀ k, play k = if t0 ≤ k then some path else none) :
    (t0 < bound → play_video_wait play bound = Except.ok path) ∧
    (bound ≤ t0 → play_video_wait play bound =
      Except.error "Download timeout") ∧
    waitLoop (fun k => (play k).isSome) bound 0 (bound + 1) ≤ bound := by
  have hloop : waitLoop (fun k => (play k).isSome) bound 0 (bound + 1) =
      min (max 0 t0) bound :=
    waitLoop_signal t0 bound path play hplay (bound + 1) 0 (Nat.zero_le bound)
      (by omega)
  refine ⟨?_, ?_, ?_⟩
  · intro hlt
    have ht : min (max 0 t0) bound = t0 := by omega
    unfold play_video_wait
    rw [hloop, ht, if_neg (by omega)]
    rw [hplay t0, if_pos (le_refl t0)]
    rfl
  · intro hge
    have ht : min (max 0 t0) bound = bound := by omega
    unfold play_video_wait
    rw [hloop, ht, if_pos rfl]
  · rw [hloop]
    omega

/-- C7 (witness): end-to-end scenarios D and E of the spec — with the
source's bound of 10 checks and a signal first observable at check 2 the
wait returns the announced path; with a bound of 1 check and no signal
before check 50 it fails with the timeout error; the loop counter never
exceeds the bound. -/
theorem play_video_wait_witness :
    play_video_wait (fun k => if 2 ≤ k then some "file.mp4" else none) 10 =
      Except.ok "file.mp4" ∧
    play_video_wait (fun k => if 50 ≤ k then some "file.mp4" else none) 1 =
      Except.error "Download timeout" := by
  constructor
  · exact (play_video_wait_spec 10 2 "file.mp4"
      (fun k => if 2 ≤ k then some "file.mp4" else none)
      (fun k => rfl)).1 (by omega)
  · exact (play_video_wait_spec 1 50 "file.mp4"
      (fun k => if 50 ≤ k then some "file.mp4" else none)
      (fun k => rfl)).2.1 (by omega)

/-- C9: `list_videos` and `search_videos` leave the `PeerTube` object's
shared request settings untouched: the dictionary behind
`self.list_settings` reads the same after the call (because `_build_params`
copies it into a fresh dictionary before adding the per-request keys
`start`, `search` and `filter`), and the object itself — including the
`filter` attribute — is returned unchanged. -/
theorem list_videos_frame (st : Store) (pt : PeerTube) (keywords : String)
    (start : Int) (h : pt.list_settings < st.heap.length) :
    readRef (list_videos st pt start).1 pt.list_settings =
      readRef st pt.list_settings ∧
    (list_videos st pt start).2.1 = pt ∧
    readRef (search_videos st pt keywords start).1 pt.list_settings =
      readRef st pt.list_settings ∧
    (search_videos st pt keywords start).2.1 = pt := by
  have hne : st.heap.length ≠ pt.list_settings := (Nat.ne_of_lt h).symm
  refine ⟨?_, rfl, ?_, rfl⟩
  · show readRef (build_params st pt _).1 pt.list_settings = _
    dsimp only [build_params, alloc]
    rw [readRef_foldl_writes st.heap.length pt.list_settings hne]
    exact readRef_alloc st _ pt.list_settings h
  · show readRef (build_params st pt _).1 pt.list_settings = _
    dsimp only [build_params, alloc]
    rw [readRef_foldl_writes st.heap.length pt.list_settings hne]
    exact readRef_alloc st _ pt.list_settings h

/-- C9 (witness): a concrete store with one settings dictionary
`{sort: "likes", count: 10}`: after `list_videos` with start 0 the shared
settings dictionary is unchanged. -/
theorem list_videos_frame_witness :
    readRef (list_videos
        (Store.mk [[("sort", PyVal.str "likes"), ("count", PyVal.int 10)]])
        (PeerTube.mk "https://peertube.cpy.re" 0 "local") 0).1 0 =
      readRef
        (Store.mk [[("sort", PyVal.str "likes"), ("count", PyVal.int 10)]])
        0 :=
  (list_videos_frame
    (Store.mk [[("sort", PyVal.str "likes"), ("count", PyVal.int 10)]])
    (PeerTube.mk "https://peertube.cpy.re" 0 "local") "kodi" 0
    (by decide)).1

/-- C10: after `set_instance` the stored instance URL always starts with
`https://`, and `set_instance` is idempotent: applying it to the value it
just stored gives the same value back. -/
theorem set_instance_https_idempotent (s : String) :
    pyStartswith (set_instance s) "https://" = true ∧
    set_instance (set_instance s) = set_instance s ∧
    (pyStartswith s "https://" = true → set_instance s = s) ∧
    (pyStartswith s "https://" = false → set_instance s = "https://" ++ s) := by
  by_cases h : pyStartswith s "https://" = true
  · have hs : set_instance s = s := by
      rw [set_instance, if_pos h]
    refine ⟨?_, ?_, fun _ => hs, fun hc => ?_⟩
    · rw [hs]
      exact h
    · rw [hs]
      exact hs
    · rw [h] at hc
      exact Bool.noConfusion hc
  · have hs : set_instance s = "https://" ++ s := by
      rw [set_instance, if_neg h]
    refine ⟨?_, ?_, fun hc => ?_, fun _ => hs⟩
    · rw [hs]
      exact pyStartswith_https s
    · rw [hs, set_instance, if_pos (pyStartswith_https s)]
    · exact absurd hc h

/-- C10 (witness): a bare host is prefixed and the result is stable; an
already-prefixed URL is stored verbatim. -/
theorem set_instance_witness :
    pyStartswith (set_instance "peertube.cpy.re") "https://" = true ∧
    set_instance (set_instance "peertube.cpy.re") =
      set_instance "peertube.cpy.re" ∧
    set_instance "https://framatube.org" = "https://framatube.org" ∧
    set_instance "peertube.cpy.re" = "https://peertube.cpy.re" :=
  ⟨(set_instance_https_idempotent "peertube.cpy.re").1,
   (set_instance_https_idempotent "peertube.cpy.re").2.1,
   (set_instance_https_idempotent "https://framatube.org").2.2.1 (by decide),
   (set_instance_https_idempotent "peertube.cpy.re").2.2.2 (by decide)⟩
